import Mathlib

/-!
Shallow embedding of the weather widget in src/script.js.

JavaScript `Math.floor(Math.random() * n) + c` draws are modelled through a
randomness oracle `rand : Nat → Nat`: the k-th draw with multiplier n is
`rand k % n`, which ranges over exactly the integers 0 .. n-1, the same set
the source expression ranges over.  Distinct call sites consume distinct
offsets of the stream.  The DOM is modelled as an explicit `UIState` record:
each `hidden` CSS class toggle becomes a Boolean visibility field, text
assignments become string fields, and rebuilding the forecast container
becomes replacing a list.
-/

namespace WeatherApp

/-- Model of JavaScript `String.prototype.toLowerCase` used at
src/script.js line 153: per-character lowercasing. -/
def jsToLower (s : String) : String := String.mk (s.data.map Char.toLower)

/-- Model of JavaScript `String.prototype.trim` used at src/script.js
line 37: strip leading and trailing whitespace. -/
def jsTrim (s : String) : String :=
  String.mk (((s.data.dropWhile Char.isWhitespace).reverse.dropWhile
    Char.isWhitespace).reverse)

/-- Current-conditions record, mirroring the object shape built by
`simulateWeatherAPI` / `simulateWeatherAPIByCoords` in src/script.js. -/
structure CurrentConditions where
  city : String
  country : String
  temperature : Int
  feelsLike : Int
  description : String
  humidity : Nat
  windSpeed : Nat
  pressure : Nat
  visibility : Nat
  uvIndex : Nat
  cloudiness : Nat
  icon : String
deriving Repr, DecidableEq

/-- One entry of the five-day forecast (`generateMockForecast`). -/
structure ForecastEntry where
  day : String
  high : Nat
  low : Nat
  description : String
  icon : String
deriving Repr, DecidableEq

/-- A weather report: current conditions plus the forecast list, the shape
returned by both simulate functions. -/
structure WeatherData where
  current : CurrentConditions
  forecast : List ForecastEntry
deriving Repr, DecidableEq

/-- The `days` array of `generateMockForecast` (src/script.js line 200). -/
def days : List String := ["Today", "Tomorrow", "Day 3", "Day 4", "Day 5"]

/-- The `descriptions` array of `generateMockForecast` (line 201). -/
def descriptions : List String :=
  ["sunny", "partly cloudy", "cloudy", "light rain", "clear"]

/-- The `icons` array of `generateMockForecast` (line 202). -/
def icons : List String :=
  ["fas fa-sun", "fas fa-cloud-sun", "fas fa-cloud", "fas fa-cloud-rain", "fas fa-sun"]

/-- `generateMockForecast` (src/script.js lines 199-211): maps over the five
day labels; entry `index` draws `high = floor(random()*15)+20` and
`low = floor(random()*10)+10`, two stream positions per entry. -/
def generateMockForecast (rand : Nat → Nat) : List ForecastEntry :=
  days.enum.map fun p =>
    { day := p.2
      high := rand (2 * p.1) % 15 + 20
      low := rand (2 * p.1 + 1) % 10 + 10
      description := descriptions.getD (p.1 % descriptions.length) ""
      icon := icons.getD (p.1 % icons.length) "" }

/-- The "new york" fixture of the `cities` table (lines 100-116). -/
def newYorkData (rand : Nat → Nat) : WeatherData :=
  { current :=
      { city := "New York", country := "US", temperature := 22, feelsLike := 25
        description := "partly cloudy", humidity := 65, windSpeed := 12
        pressure := 1013, visibility := 10, uvIndex := 6, cloudiness := 40
        icon := "fas fa-cloud-sun" }
    forecast := generateMockForecast rand }

/-- The "london" fixture of the `cities` table (lines 117-133). -/
def londonData (rand : Nat → Nat) : WeatherData :=
  { current :=
      { city := "London", country := "UK", temperature := 15, feelsLike := 13
        description := "light rain", humidity := 80, windSpeed := 8
        pressure := 1008, visibility := 8, uvIndex := 3, cloudiness := 75
        icon := "fas fa-cloud-rain" }
    forecast := generateMockForecast (fun k => rand (k + 10)) }

/-- The "tokyo" fixture of the `cities` table (lines 134-150). -/
def tokyoData (rand : Nat → Nat) : WeatherData :=
  { current :=
      { city := "Tokyo", country := "JP", temperature := 28, feelsLike := 32
        description := "sunny", humidity := 55, windSpeed := 6
        pressure := 1020, visibility := 15, uvIndex := 8, cloudiness := 10
        icon := "fas fa-sun" }
    forecast := generateMockForecast (fun k => rand (k + 20)) }

/-- The `cities` mock table of `simulateWeatherAPI` (lines 99-151).  The
object literal eagerly calls `generateMockForecast` once per fixture, so the
three fixtures consume disjoint segments of the randomness stream. -/
def cities (rand : Nat → Nat) : List (String × WeatherData) :=
  [("new york", newYorkData rand),
   ("london", londonData rand),
   ("tokyo", tokyoData rand)]

/-- The three fixture keys of the `cities` table. -/
def fixtureKeys : List String := ["new york", "london", "tokyo"]

/-- The generic response synthesized for cities outside the table
(lines 157-174): input name preserved, country "Unknown", randomized
numerics, fixed description and icon. -/
def syntheticResponse (city : String) (rand : Nat → Nat) : WeatherData :=
  { current :=
      { city := city
        country := "Unknown"
        temperature := (rand 30 % 30 + 5 : Nat)
        feelsLike := (rand 31 % 30 + 5 : Nat)
        description := "clear sky"
        humidity := rand 32 % 40 + 40
        windSpeed := rand 33 % 15 + 5
        pressure := rand 34 % 50 + 1000
        visibility := rand 35 % 10 + 5
        uvIndex := rand 36 % 10 + 1
        cloudiness := rand 37 % 60 + 20
        icon := "fas fa-sun" }
    forecast := generateMockForecast (fun k => rand (k + 38)) }

/-- The own property names of `Object.prototype` in a standard JavaScript
runtime.  A plain object literal such as the `cities` table inherits these,
so bracket access `cities[cityKey]` on a key that is not an own key still
yields a truthy value (a built-in function, or `Object.prototype` itself
for `__proto__`) whenever the key is one of these names. -/
def objectPrototypeKeys : List String :=
  ["constructor", "hasOwnProperty", "isPrototypeOf", "propertyIsEnumerable",
   "toLocaleString", "toString", "valueOf", "__proto__", "__defineGetter__",
   "__defineSetter__", "__lookupGetter__", "__lookupSetter__"]

/-- What `simulateWeatherAPI` resolves with: either a weather-data object
(own key of the `cities` table, or the synthesized fallback), or an
inherited `Object.prototype` member returned by the truthy bracket lookup
`cities[cityKey]` at line 154 (e.g. `cities["constructor"]`). -/
inductive SimResponse where
  | weather (d : WeatherData)
  | protoMember (member : String)
deriving Repr, DecidableEq

/-- `simulateWeatherAPI` (lines 94-176): lowercases the city, then tests
`cities[cityKey]` for truthiness.  Bracket access resolves own keys first
("new york", "london", "tokyo"), then the prototype chain: for a key that
is an `Object.prototype` property name the inherited member is truthy and
is returned as the response.  Otherwise the lookup is `undefined` (falsy)
and the generic response is synthesized with the input name preserved.
As an async function it may in principle reject, hence the `Except`
result type; the body always resolves. -/
def simulateWeatherAPI (city : String) (rand : Nat → Nat) :
    Except String SimResponse :=
  let cityKey := jsToLower city
  match (cities rand).lookup cityKey with
  | some d => Except.ok (SimResponse.weather d)
  | none =>
      if cityKey ∈ objectPrototypeKeys then
        Except.ok (SimResponse.protoMember cityKey)
      else
        Except.ok (SimResponse.weather (syntheticResponse city rand))

/-- `simulateWeatherAPIByCoords` (lines 178-197): returns a fixed
"Your Location" record; `lat` and `lon` do not appear in the body. -/
def simulateWeatherAPIByCoords (lat lon : ℚ) (rand : Nat → Nat) :
    Except String WeatherData :=
  Except.ok
    { current :=
        { city := "Your Location", country := "", temperature := 20
          feelsLike := 22, description := "clear sky", humidity := 60
          windSpeed := 10, pressure := 1015, visibility := 12, uvIndex := 5
          cloudiness := 20, icon := "fas fa-sun" }
      forecast := generateMockForecast rand }

/-- The DOM regions the widget toggles, as explicit state: `hidden` class
absent = visible.  `forecastItems` is the forecast container's children. -/
structure UIState where
  loadingVisible : Bool
  errorVisible : Bool
  currentVisible : Bool
  forecastVisible : Bool
  errorMessageText : String
  cityNameText : String
  currentData : Option CurrentConditions
  forecastItems : List ForecastEntry
deriving Repr, DecidableEq

/-- A neutral element state used to instantiate theorems concretely. -/
def initState : UIState :=
  { loadingVisible := false, errorVisible := false, currentVisible := false
    forecastVisible := false, errorMessageText := "", cityNameText := ""
    currentData := none, forecastItems := [] }

/-- `showLoading` (lines 256-261): show spinner, hide error, current
weather and forecast regions. -/
def showLoading (s : UIState) : UIState :=
  { s with loadingVisible := true, errorVisible := false
           currentVisible := false, forecastVisible := false }

/-- `hideLoading` (lines 263-265). -/
def hideLoading (s : UIState) : UIState :=
  { s with loadingVisible := false }

/-- `showError` (lines 267-272): set the message, show the error region,
hide current weather and forecast. -/
def showError (msg : String) (s : UIState) : UIState :=
  { s with errorMessageText := msg, errorVisible := true
           currentVisible := false, forecastVisible := false }

/-- `displayCurrentWeather` (lines 213-233): writes all fields and unhides
the region.  The city label is `city` plus `", " + country` when the
country string is truthy (non-empty). -/
def displayCurrentWeather (data : CurrentConditions) (s : UIState) : UIState :=
  { s with
      cityNameText :=
        data.city ++ (if data.country ≠ "" then ", " ++ data.country else "")
      currentData := some data
      currentVisible := true }

/-- `displayForecast` (lines 235-254): clears the container
(`innerHTML = ''`) then appends one item per entry, so the children become
exactly the new list; then unhides the forecast region. -/
def displayForecast (forecastData : List ForecastEntry) (s : UIState) : UIState :=
  { s with forecastItems := forecastData, forecastVisible := true }

/-- `getWeatherData` (lines 64-77): show loading, await the simulated
fetch, then inside the try block render current weather, render the
forecast and hide loading.  When the fetch resolved with an inherited
`Object.prototype` member, `weatherData.current` is `undefined`, so
`displayCurrentWeather(undefined)` throws a TypeError while evaluating
`data.city` (line 214) before any DOM write; control lands in the catch
(lines 73-76), which hides loading and shows the not-found message.  A
rejected fetch takes the same catch path. -/
def getWeatherData (city : String) (rand : Nat → Nat) (s : UIState) : UIState :=
  let s1 := showLoading s
  match simulateWeatherAPI city rand with
  | Except.ok (SimResponse.weather d) =>
      hideLoading (displayForecast d.forecast (displayCurrentWeather d.current s1))
  | Except.ok (SimResponse.protoMember _) =>
      showError "City not found. Please check the spelling and try again."
        (hideLoading s1)
  | Except.error _ =>
      showError "City not found. Please check the spelling and try again."
        (hideLoading s1)

/-- `getWeatherByCoords` (lines 79-91). -/
def getWeatherByCoords (lat lon : ℚ) (rand : Nat → Nat) (s : UIState) : UIState :=
  let s1 := showLoading s
  match simulateWeatherAPIByCoords lat lon rand with
  | Except.ok d =>
      hideLoading (displayForecast d.forecast (displayCurrentWeather d.current s1))
  | Except.error _ =>
      showError "Unable to fetch weather data for your location." (hideLoading s1)

/-- `searchWeather` (lines 36-43): trim the input; an empty result shows
the validation message and returns without fetching, otherwise the fetch
runs.  The second component records which city, if any, was fetched. -/
def searchWeather (input : String) (rand : Nat → Nat) (s : UIState) :
    UIState × Option String :=
  let city := jsTrim input
  if city = "" then (showError "Please enter a city name" s, none)
  else (getWeatherData city rand s, some city)

theorem lookup_cities (rand : Nat → Nat) (key : String) :
    (cities rand).lookup key =
      if key = "new york" then some (newYorkData rand)
      else if key = "london" then some (londonData rand)
      else if key = "tokyo" then some (tokyoData rand)
      else none := by
  by_cases h1 : key = "new york"
  · subst h1; rfl
  by_cases h2 : key = "london"
  · subst h2; rfl
  by_cases h3 : key = "tokyo"
  · subst h3; rfl
  have b1 : (key == "new york") = false := beq_eq_false_iff_ne.mpr h1
  have b2 : (key == "london") = false := beq_eq_false_iff_ne.mpr h2
  have b3 : (key == "tokyo") = false := beq_eq_false_iff_ne.mpr h3
  simp [cities, List.lookup, b1, b2, b3, h1, h2, h3]

theorem simulateWeatherAPI_unfold (city : String) (rand : Nat → Nat) :
    simulateWeatherAPI city rand =
      Except.ok
        (if jsToLower city = "new york" then SimResponse.weather (newYorkData rand)
         else if jsToLower city = "london" then SimResponse.weather (londonData rand)
         else if jsToLower city = "tokyo" then SimResponse.weather (tokyoData rand)
         else if jsToLower city ∈ objectPrototypeKeys then
           SimResponse.protoMember (jsToLower city)
         else SimResponse.weather (syntheticResponse city rand)) := by
  simp only [simulateWeatherAPI, lookup_cities]
  split_ifs <;> rfl

theorem simulateWeatherAPI_not_proto (city : String) (rand : Nat → Nat)
    (h : jsToLower city ∉ objectPrototypeKeys) :
    simulateWeatherAPI city rand =
      Except.ok (SimResponse.weather
        (if jsToLower city = "new york" then newYorkData rand
         else if jsToLower city = "london" then londonData rand
         else if jsToLower city = "tokyo" then tokyoData rand
         else syntheticResponse city rand)) := by
  rw [simulateWeatherAPI_unfold, if_neg h]
  split_ifs <;> rfl

theorem simulateWeatherAPI_proto (city : String) (rand : Nat → Nat)
    (h : jsToLower city ∈ objectPrototypeKeys) :
    simulateWeatherAPI city rand =
      Except.ok (SimResponse.protoMember (jsToLower city)) := by
  have a : jsToLower city ≠ "new york" := fun e => by
    rw [e] at h; exact absurd h (by decide)
  have b : jsToLower city ≠ "london" := fun e => by
    rw [e] at h; exact absurd h (by decide)
  have c : jsToLower city ≠ "tokyo" := fun e => by
    rw [e] at h; exact absurd h (by decide)
  rw [simulateWeatherAPI_unfold, if_neg a, if_neg b, if_neg c, if_pos h]

theorem getWeatherData_ok (city : String) (rand : Nat → Nat) (s : UIState)
    (d : WeatherData)
    (h : simulateWeatherAPI city rand = Except.ok (SimResponse.weather d)) :
    getWeatherData city rand s =
      hideLoading (displayForecast d.forecast
        (displayCurrentWeather d.current (showLoading s))) := by
  simp [getWeatherData, h]

theorem getWeatherData_proto (city : String) (rand : Nat → Nat) (s : UIState)
    (m : String)
    (h : simulateWeatherAPI city rand = Except.ok (SimResponse.protoMember m)) :
    getWeatherData city rand s =
      showError "City not found. Please check the spelling and try again."
        (hideLoading (showLoading s)) := by
  simp [getWeatherData, h]

/-- C1: an input whose trim is empty renders the validation message,
starts no fetch, and does not enter the loading state. -/
theorem searchWeather_empty_input_validation (input : String)
    (rand : Nat → Nat) (s : UIState) (h : jsTrim input = "") :
    (searchWeather input rand s).2 = none ∧
    (searchWeather input rand s).1.errorVisible = true ∧
    (searchWeather input rand s).1.errorMessageText = "Please enter a city name" ∧
    (searchWeather input rand s).1.loadingVisible = s.loadingVisible := by
  simp [searchWeather, h, showError]

theorem searchWeather_empty_input_validation_witness :
    (searchWeather "   " (fun _ => 0) initState).2 = none ∧
    (searchWeather "   " (fun _ => 0) initState).1.errorVisible = true ∧
    (searchWeather "   " (fun _ => 0) initState).1.errorMessageText =
      "Please enter a city name" ∧
    (searchWeather "   " (fun _ => 0) initState).1.loadingVisible =
      initState.loadingVisible :=
  searchWeather_empty_input_validation "   " (fun _ => 0) initState (by decide)

/-- C2: every generated forecast has exactly 5 entries, day labels in the
fixed order Today, Tomorrow, Day 3, Day 4, Day 5, and rendering replaces
the whole prior forecast content. -/
theorem forecast_five_entries_fixed_order (rand : Nat → Nat)
    (fd : List ForecastEntry) (s : UIState) :
    (generateMockForecast rand).length = 5 ∧
    (generateMockForecast rand).map (fun e => e.day) =
      ["Today", "Tomorrow", "Day 3", "Day 4", "Day 5"] ∧
    (displayForecast fd s).forecastItems = fd :=
  ⟨rfl, rfl, rfl⟩

/-- C3 as claimed is false of the source: for input "constructor" the
lowercased key is an inherited `Object.prototype` property, the bracket
lookup is truthy, rendering the inherited member throws, and the search
renders the not-found error instead of a report with city "constructor". -/
theorem searchByName_city_case_counterexample :
    jsTrim "constructor" ≠ "" ∧
    jsToLower "constructor" ∉ fixtureKeys ∧
    simulateWeatherAPI "constructor" (fun _ => 0) =
      Except.ok (SimResponse.protoMember "constructor") ∧
    (searchWeather "constructor" (fun _ => 0) initState).1.currentData = none ∧
    (searchWeather "constructor" (fun _ => 0) initState).1.errorVisible = true ∧
    (searchWeather "constructor" (fun _ => 0) initState).1.errorMessageText =
      "City not found. Please check the spelling and try again." ∧
    ¬ ∃ d : WeatherData,
        simulateWeatherAPI "constructor" (fun _ => 0) =
          Except.ok (SimResponse.weather d) := by
  refine ⟨by decide, by decide, rfl, rfl, rfl, rfl, ?_⟩
  rintro ⟨d, hd⟩
  rw [show simulateWeatherAPI "constructor" (fun _ => 0) =
        Except.ok (SimResponse.protoMember "constructor") from rfl] at hd
  simp at hd

/-- C3, amended: for a non-empty trimmed name whose lowercased form is not
an inherited `Object.prototype` property name, the search renders a report
whose city is the input name with case preserved, unless the lowercased
name is a fixture key, in which case the fixture canonical name/country is
used. -/
theorem searchByName_city_case (input : String) (rand : Nat → Nat)
    (s : UIState) (h : jsTrim input ≠ "")
    (hp : jsToLower (jsTrim input) ∉ objectPrototypeKeys) :
    ∃ d : WeatherData,
      simulateWeatherAPI (jsTrim input) rand =
        Except.ok (SimResponse.weather d) ∧
      (searchWeather input rand s).1.currentData = some d.current ∧
      (jsToLower (jsTrim input) ∉ fixtureKeys → d.current.city = jsTrim input) ∧
      (jsToLower (jsTrim input) = "new york" →
        d.current.city = "New York" ∧ d.current.country = "US") ∧
      (jsToLower (jsTrim input) = "london" →
        d.current.city = "London" ∧ d.current.country = "UK") ∧
      (jsToLower (jsTrim input) = "tokyo" →
        d.current.city = "Tokyo" ∧ d.current.country = "JP") := by
  have hs : (searchWeather input rand s).1 = getWeatherData (jsTrim input) rand s := by
    simp [searchWeather, h]
  refine ⟨(if jsToLower (jsTrim input) = "new york" then newYorkData rand
    else if jsToLower (jsTrim input) = "london" then londonData rand
    else if jsToLower (jsTrim input) = "tokyo" then tokyoData rand
    else syntheticResponse (jsTrim input) rand),
    simulateWeatherAPI_not_proto (jsTrim input) rand hp, ?_, ?_, ?_, ?_, ?_⟩
  · rw [hs,
      getWeatherData_ok _ _ _ _ (simulateWeatherAPI_not_proto (jsTrim input) rand hp)]
    rfl
  · intro hn
    simp only [fixtureKeys, List.mem_cons, List.not_mem_nil, or_false, not_or] at hn
    obtain ⟨h1, h2, h3⟩ := hn
    simp [h1, h2, h3, syntheticResponse]
  · intro h1; simp [h1, newYorkData]
  · intro h2
    have h1 : jsToLower (jsTrim input) ≠ "new york" := by
      rw [h2]; decide
    simp [h1, h2, londonData]
  · intro h3
    have h1 : jsToLower (jsTrim input) ≠ "new york" := by rw [h3]; decide
    have h2 : jsToLower (jsTrim input) ≠ "london" := by rw [h3]; decide
    simp [h1, h2, h3, tokyoData]

theorem searchByName_city_case_witness :
    jsTrim "Paris" ≠ "" ∧
    jsToLower (jsTrim "Paris") ∉ objectPrototypeKeys ∧
    (∃ d : WeatherData,
      simulateWeatherAPI (jsTrim "Paris") (fun _ => 0) =
        Except.ok (SimResponse.weather d) ∧
      (searchWeather "Paris" (fun _ => 0) initState).1.currentData = some d.current ∧
      (jsToLower (jsTrim "Paris") ∉ fixtureKeys → d.current.city = jsTrim "Paris") ∧
      (jsToLower (jsTrim "Paris") = "new york" →
        d.current.city = "New York" ∧ d.current.country = "US") ∧
      (jsToLower (jsTrim "Paris") = "london" →
        d.current.city = "London" ∧ d.current.country = "UK") ∧
      (jsToLower (jsTrim "Paris") = "tokyo" →
        d.current.city = "Tokyo" ∧ d.current.country = "JP")) :=
  ⟨by decide, by decide,
   searchByName_city_case "Paris" (fun _ => 0) initState (by decide) (by decide)⟩

/-- C4: fixture lookup is case-insensitive; "LONDON", "London" and
"london" return the same fixture, with temperature 15, description
"light rain" and country "UK". -/
theorem london_fixture_case_insensitive (rand : Nat → Nat) :
    simulateWeatherAPI "LONDON" rand = simulateWeatherAPI "london" rand ∧
    simulateWeatherAPI "London" rand = simulateWeatherAPI "london" rand ∧
    simulateWeatherAPI "london" rand =
      Except.ok (SimResponse.weather (londonData rand)) ∧
    (londonData rand).current.temperature = 15 ∧
    (londonData rand).current.description = "light rain" ∧
    (londonData rand).current.country = "UK" :=
  ⟨rfl, rfl, rfl, rfl, rfl, rfl⟩

/-- C5 as claimed is false of the source: "__proto__" matches no fixture,
yet the bracket lookup returns the inherited `Object.prototype` member
instead of synthesized conditions, and the operation settles in the
not-found error state rather than succeeding. -/
theorem unknown_city_synthetic_counterexample :
    jsToLower "__proto__" ∉ fixtureKeys ∧
    simulateWeatherAPI "__proto__" (fun _ => 0) =
      Except.ok (SimResponse.protoMember "__proto__") ∧
    (getWeatherData "__proto__" (fun _ => 0) initState).errorVisible = true ∧
    (getWeatherData "__proto__" (fun _ => 0) initState).errorMessageText =
      "City not found. Please check the spelling and try again." ∧
    ¬ ∃ d : WeatherData,
        simulateWeatherAPI "__proto__" (fun _ => 0) =
          Except.ok (SimResponse.weather d) := by
  refine ⟨by decide, rfl, rfl, rfl, ?_⟩
  rintro ⟨d, hd⟩
  rw [show simulateWeatherAPI "__proto__" (fun _ => 0) =
        Except.ok (SimResponse.protoMember "__proto__") from rfl] at hd
  simp at hd

/-- C5, amended: any city whose lowercased name is neither a fixture key
nor an inherited `Object.prototype` property name gets a successful
synthesized response with temperature in the configured bounds 5..34 and a
non-empty description. -/
theorem unknown_city_synthetic_success (city : String) (rand : Nat → Nat)
    (h : jsToLower city ∉ fixtureKeys)
    (hp : jsToLower city ∉ objectPrototypeKeys) :
    simulateWeatherAPI city rand =
      Except.ok (SimResponse.weather (syntheticResponse city rand)) ∧
    5 ≤ (syntheticResponse city rand).current.temperature ∧
    (syntheticResponse city rand).current.temperature ≤ 34 ∧
    (syntheticResponse city rand).current.description ≠ "" := by
  simp only [fixtureKeys, List.mem_cons, List.not_mem_nil, or_false, not_or] at h
  obtain ⟨h1, h2, h3⟩ := h
  refine ⟨?_, ?_, ?_, by simp [syntheticResponse]⟩
  · rw [simulateWeatherAPI_not_proto city rand hp, if_neg h1, if_neg h2, if_neg h3]
  · show (5 : Int) ≤ (rand 30 % 30 + 5 : Nat)
    have := Nat.mod_lt (rand 30) (show 0 < 30 by norm_num)
    omega
  · show ((rand 30 % 30 + 5 : Nat) : Int) ≤ 34
    have := Nat.mod_lt (rand 30) (show 0 < 30 by norm_num)
    omega

theorem unknown_city_synthetic_success_witness :
    jsToLower "Paris" ∉ fixtureKeys ∧
    jsToLower "Paris" ∉ objectPrototypeKeys ∧
    (simulateWeatherAPI "Paris" (fun _ => 0) =
      Except.ok (SimResponse.weather (syntheticResponse "Paris" (fun _ => 0))) ∧
    5 ≤ (syntheticResponse "Paris" (fun _ => 0)).current.temperature ∧
    (syntheticResponse "Paris" (fun _ => 0)).current.temperature ≤ 34 ∧
    (syntheticResponse "Paris" (fun _ => 0)).current.description ≠ "") :=
  ⟨by decide, by decide,
   unknown_city_synthetic_success "Paris" (fun _ => 0) (by decide) (by decide)⟩

/-- C6: a successful geolocation fetch at (40.7, -74.0) produces a report
with city "Your Location", which is rendered. -/
theorem geolocation_renders_your_location (rand : Nat → Nat) (s : UIState) :
    ∃ d : WeatherData,
      simulateWeatherAPIByCoords (40.7 : ℚ) (-74.0 : ℚ) rand = Except.ok d ∧
      d.current.city = "Your Location" ∧
      (getWeatherByCoords (40.7 : ℚ) (-74.0 : ℚ) rand s).currentData =
        some d.current ∧
      (getWeatherByCoords (40.7 : ℚ) (-74.0 : ℚ) rand s).cityNameText =
        "Your Location" ∧
      (getWeatherByCoords (40.7 : ℚ) (-74.0 : ℚ) rand s).currentVisible = true :=
  ⟨_, rfl, rfl, rfl, rfl, rfl⟩

/-- C7: entering Loading hides prior success and error content; after a
search or a coordinate fetch settles, exactly one of the success content
and the error content is visible. -/
theorem loading_and_settlement_exclusive (input : String) (lat lon : ℚ)
    (rand : Nat → Nat) (s : UIState) :
    (showLoading s).errorVisible = false ∧
    (showLoading s).currentVisible = false ∧
    (showLoading s).forecastVisible = false ∧
    (((searchWeather input rand s).1.currentVisible = true ∧
      (searchWeather input rand s).1.forecastVisible = true ∧
      (searchWeather input rand s).1.errorVisible = false) ∨
     ((searchWeather input rand s).1.errorVisible = true ∧
      (searchWeather input rand s).1.currentVisible = false ∧
      (searchWeather input rand s).1.forecastVisible = false)) ∧
    ((getWeatherByCoords lat lon rand s).currentVisible = true ∧
     (getWeatherByCoords lat lon rand s).forecastVisible = true ∧
     (getWeatherByCoords lat lon rand s).errorVisible = false) := by
  refine ⟨rfl, rfl, rfl, ?_, rfl, rfl, rfl⟩
  by_cases h : jsTrim input = ""
  · right; simp [searchWeather, h, showError]
  · have hs : (searchWeather input rand s).1 = getWeatherData (jsTrim input) rand s := by
      simp [searchWeather, h]
    by_cases hp : jsToLower (jsTrim input) ∈ objectPrototypeKeys
    · right
      rw [hs, getWeatherData_proto _ _ _ _ (simulateWeatherAPI_proto _ rand hp)]
      exact ⟨rfl, rfl, rfl⟩
    · left
      rw [hs,
        getWeatherData_ok _ _ _ _ (simulateWeatherAPI_not_proto (jsTrim input) rand hp)]
      exact ⟨rfl, rfl, rfl⟩

/-- C8 as claimed is false of the source: the catch branch of the name
search is reachable.  At input "constructor" the bracket lookup returns
the truthy inherited `Object.prototype` member, rendering it throws, and
the "City not found" message is shown. -/
theorem provider_never_rejects_counterexample :
    simulateWeatherAPI "constructor" (fun _ => 0) =
      Except.ok (SimResponse.protoMember "constructor") ∧
    (getWeatherData "constructor" (fun _ => 0) initState).errorVisible = true ∧
    (getWeatherData "constructor" (fun _ => 0) initState).errorMessageText =
      "City not found. Please check the spelling and try again." :=
  ⟨rfl, rfl, rfl⟩

/-- C8, amended: the simulated provider always resolves (it never
rejects); nevertheless the catch branch is reachable because a resolved
prototype member throws during rendering.  For every input whose
lowercased name is not an `Object.prototype` property name, the catch
branch does not run: the error region stays hidden and the error message
is untouched. -/
theorem provider_never_rejects (city : String) (rand : Nat → Nat) (s : UIState)
    (hp : jsToLower city ∉ objectPrototypeKeys) :
    (∀ c : String, ∃ r : SimResponse,
      simulateWeatherAPI c rand = Except.ok r) ∧
    (getWeatherData city rand s).errorVisible = false ∧
    (getWeatherData city rand s).errorMessageText = s.errorMessageText := by
  rw [getWeatherData_ok _ _ _ _ (simulateWeatherAPI_not_proto city rand hp)]
  exact ⟨fun c => ⟨_, simulateWeatherAPI_unfold c rand⟩, rfl, rfl⟩

theorem provider_never_rejects_witness :
    jsToLower "Paris" ∉ objectPrototypeKeys ∧
    ((∀ c : String, ∃ r : SimResponse,
      simulateWeatherAPI c (fun _ => 0) = Except.ok r) ∧
    (getWeatherData "Paris" (fun _ => 0) initState).errorVisible = false ∧
    (getWeatherData "Paris" (fun _ => 0) initState).errorMessageText =
      initState.errorMessageText) :=
  ⟨by decide, provider_never_rejects "Paris" (fun _ => 0) initState (by decide)⟩

/-- C9: in every generated forecast entry the high is in 20..34, the low
in 10..19, so high is strictly greater than low. -/
theorem forecast_high_gt_low (rand : Nat → Nat) :
    ∀ e ∈ generateMockForecast rand,
      20 ≤ e.high ∧ e.high ≤ 34 ∧ 10 ≤ e.low ∧ e.low ≤ 19 ∧ e.low < e.high := by
  intro e he
  have hg : generateMockForecast rand =
      [⟨"Today", rand 0 % 15 + 20, rand 1 % 10 + 10, "sunny", "fas fa-sun"⟩,
       ⟨"Tomorrow", rand 2 % 15 + 20, rand 3 % 10 + 10, "partly cloudy",
        "fas fa-cloud-sun"⟩,
       ⟨"Day 3", rand 4 % 15 + 20, rand 5 % 10 + 10, "cloudy", "fas fa-cloud"⟩,
       ⟨"Day 4", rand 6 % 15 + 20, rand 7 % 10 + 10, "light rain",
        "fas fa-cloud-rain"⟩,
       ⟨"Day 5", rand 8 % 15 + 20, rand 9 % 10 + 10, "clear", "fas fa-sun"⟩] := rfl
  rw [hg] at he
  simp only [List.mem_cons, List.not_mem_nil, or_false] at he
  rcases he with rfl | rfl | rfl | rfl | rfl <;> dsimp <;> omega

theorem forecast_high_gt_low_witness :
    (⟨"Today", 20, 10, "sunny", "fas fa-sun"⟩ : ForecastEntry) ∈
      generateMockForecast (fun _ => 0) ∧
    (20 ≤ (20 : Nat) ∧ (20 : Nat) ≤ 34 ∧ 10 ≤ (10 : Nat) ∧ (10 : Nat) ≤ 19 ∧
      (10 : Nat) < 20) :=
  ⟨by decide,
   forecast_high_gt_low (fun _ => 0)
     ⟨"Today", 20, 10, "sunny", "fas fa-sun"⟩ (by decide)⟩

/-- C10: the coordinate fetch ignores its inputs entirely: any two
coordinate pairs yield identical results, with city "Your Location",
empty country and temperature 20. -/
theorem coords_have_no_influence (lat1 lon1 lat2 lon2 : ℚ) (rand : Nat → Nat) :
    simulateWeatherAPIByCoords lat1 lon1 rand =
      simulateWeatherAPIByCoords lat2 lon2 rand ∧
    ∃ d : WeatherData,
      simulateWeatherAPIByCoords lat1 lon1 rand = Except.ok d ∧
      d.current.city = "Your Location" ∧
      d.current.country = "" ∧
      d.current.temperature = 20 :=
  ⟨rfl, _, rfl, rfl, rfl, rfl⟩

end WeatherApp
